import Mathlib

/-!
Shallow embedding of the GardienAI backend (src/app.py): the rule-based
advisory logic of the `/weather`, `/watering-alert` and `/daily-care`
routes, the static plant catalog of `/plant-selector`, and the
request-handling skeleton of each route (input validation, the upstream
HTTP fetch, Python exception propagation, and the filesystem effects of
`/plant-journal`).

Conventions of the embedding:
* Python floats become `Rat`; all thresholds in the source are small
  integers, so the order comparisons are exact.
* Python strings become `String`; `str.lower()` becomes the character-wise
  map `lowerStr`, and the Python substring test `"rain" in s` becomes a
  decidable `List.IsInfix` test on the character list.
* A Python value that may be absent (`dict.get`, `request.files.get`,
  `request.form.get`) becomes an `Option`.
* A Python exception becomes the `Except.error` branch of
  `Except String α`, carrying the exception text; a `try/except` block
  becomes a `match` that turns `Except.error` into an error response.
* The network call of a route is abstracted as a `Fetch` argument: either
  the call (or the subsequent `.json()` decoding) raises, or it returns a
  parsed payload.  Whether the call was performed at all is recorded in
  the `fetched` field of the handler's outcome.
-/

namespace GardienAI

/-- Character-wise lowercasing, the embedding of Python's `str.lower()`. -/
def lowerStr (s : String) : String := ⟨s.data.map Char.toLower⟩

/-- The check `"rain" in s.lower()` from `watering_alert` (src/app.py:60)
and `get_weather` (src/app.py:153). -/
def hasRain (s : String) : Bool := decide ("rain".data <:+: (lowerStr s).data)

/-- The three weather fields every weather-consuming rule reads, after the
upstream payload has been unpacked (spec §3 WeatherReading). -/
structure WeatherReading where
  temperature : Rat
  humidity : Rat
  description : String
deriving DecidableEq

/-! Tip strings of the `/weather` route (src/app.py:146-156). -/

def heat_tip : String := "🌞 It's hot! Water your plants early morning or late evening."

def frost_tip : String := "❄️ Cold alert! Protect your plants from frost."

def normal_tip : String := "✅ Normal weather. Water as usual."

def rain_tip : String := "🌧️ It's raining. Reduce watering."

def humidity_tip : String := "💧 High humidity. Improve ventilation to avoid fungal diseases."

/-- The tips list built by `get_weather` (src/app.py:145-156): an exclusive
temperature band, then the rain rule, then the humidity rule, each
appending independently. -/
def weather_tips (w : WeatherReading) : List String :=
  (if w.temperature > 30 then [heat_tip]
   else if w.temperature < 10 then [frost_tip]
   else [normal_tip])
  ++ (if hasRain w.description then [rain_tip] else [])
  ++ (if w.humidity > 80 then [humidity_tip] else [])

/-! Tip strings of the `/watering-alert` route (src/app.py:56-63). -/

def water_today_tip : String := "💧 It's dry and warm. Water your plants today!"

def hold_off_tip : String := "🌧️ It's very humid. Hold off on watering."

def rainy_no_water_tip : String := "🌦️ It's rainy. No need to water today."

def check_soil_tip : String := "🪴 Check soil moisture before watering."

/-- The single tip chosen by `watering_alert` (src/app.py:56-63):
a first-match-wins `if/elif/elif/else` chain. -/
def watering_tip (w : WeatherReading) : String :=
  if w.humidity < 50 ∧ w.temperature > 20 then water_today_tip
  else if w.humidity > 80 then hold_off_tip
  else if hasRain w.description then rainy_no_water_tip
  else check_soil_tip

/-! Tip strings of the `/daily-care` route (src/app.py:101-112). -/

def cactus_base_tip : String := "🌵 Minimal watering needed. Great for dry conditions."

def cactus_humid_warn : String := "⚠️ Reduce watering. Humidity is high."

def fern_base_tip : String := "🌿 Keep soil moist. Foliage loves humidity."

def fern_mist_tip : String := "💧 Mist your plant to maintain moisture."

def other_base_tip : String := "🪴 Water when top soil is dry."

def other_cold_tip : String := "❄️ Keep your plant away from cold drafts."

/-- The care-suggestions list built by `daily_care` (src/app.py:99-112):
one base tip chosen on the lowercased plant type, plus at most one
conditional follow-up tip. -/
def care_suggestions (plant_type : String) (temperature humidity : Rat) : List String :=
  if lowerStr plant_type = "cactus" then
    cactus_base_tip :: (if humidity > 70 then [cactus_humid_warn] else [])
  else if lowerStr plant_type = "fern" then
    fern_base_tip :: (if humidity < 50 then [fern_mist_tip] else [])
  else
    other_base_tip :: (if temperature < 10 then [other_cold_tip] else [])

/-! The static plant catalog of `/plant-selector` (src/app.py:203-218). -/

/-- The nested dictionary `plant_database` of `plant_selector`
(src/app.py:203-216), as an association list of association lists. -/
def plant_database : List (String × List (String × List String)) :=
  [("low light",
     [("low maintenance", ["Snake Plant", "ZZ Plant", "Pothos"]),
      ("air purifying", ["Peace Lily", "Spider Plant"])]),
   ("bright light",
     [("flowering", ["African Violet", "Orchid"]),
      ("low maintenance", ["Succulent", "Aloe Vera"])]),
   ("humid",
     [("tropical", ["Fern", "Calathea"]),
      ("colorful", ["Croton", "Bromeliad"])])]

/-- The lookup `plant_database.get(environment, {}).get(preference, [])`
(src/app.py:218): a total function, missing keys give the empty list. -/
def catalog_lookup (environment preference : String) : List String :=
  ((((plant_database.lookup environment).getD []).lookup preference).getD [])

/-- The JSON body `plant_selector` responds with (src/app.py:220-224). -/
structure SelectorResponse where
  environment : String
  preference : String
  recommended_plants : List String
deriving DecidableEq

/-- The `plant_selector` handler (src/app.py:197-224): both inputs default
to the empty string when absent, are lowercased, and the lowercased forms
are echoed back alongside the catalog lookup.  It performs no upstream
call and no validation, so it always answers with a `SelectorResponse`. -/
def plant_selector (environment preference : Option String) : SelectorResponse :=
  let env := lowerStr (environment.getD "")
  let pref := lowerStr (preference.getD "")
  { environment := env, preference := pref,
    recommended_plants := catalog_lookup env pref }

/-! Request-handler skeletons: validation, the upstream fetch, Python
exception propagation, and (for the journal route) filesystem effects. -/

/-- An uploaded file, as the handlers see it (only its presence and name
matter to the embedded logic). -/
structure ImageFile where
  filename : String
deriving DecidableEq

/-- Outcome of one upstream HTTP interaction of a route: either the
network call or the `.json()` decoding raises (carrying the Python
exception text), or it yields a parsed payload. -/
inductive Fetch (α : Type) where
  | raise (msg : String)
  | ok (payload : α)
deriving DecidableEq

/-- The `main` object of a parsed OpenWeather payload; a field is `none`
when the key is absent (its access then raises a `KeyError`). -/
structure WeatherMain where
  temp : Option Rat
  humidity : Option Rat
deriving DecidableEq

/-- A parsed OpenWeather payload as the weather routes consume it:
HTTP status, the `main` object, `weather[0]["description"]` (`none` when
any step of that access would raise), and the optional `message` field
that `get_weather` reads on a non-200 status. -/
structure WeatherPayload where
  status : Nat
  main : Option WeatherMain
  weather_description : Option String
  message : Option String
deriving DecidableEq

/-- A parsed inference-API payload as `predict` consumes it:
`response.json()[0]["label"]`, `none` when any step of that access would
raise. -/
structure PredictPayload where
  first_label : Option String
deriving DecidableEq

/-- The JSON bodies the routes respond with (src/app.py): the two error
shapes and the success shape of each route. -/
inductive Response where
  | err (error : String)
  | errDetails (error details : String)
  | predictOk (prediction : String)
  | wateringOk (temperature humidity : Rat) (weather watering_tip : String)
  | dailyOk (plant city : String) (temperature humidity : Rat) (weather : String)
      (care_suggestions : List String)
  | weatherOk (temperature : Rat) (description : String) (humidity : Rat)
      (tips : List String)
  | journalOk (timestamp : String) (image_saved : Bool)
deriving DecidableEq

/-- Accessing a possibly-missing JSON field: `some` yields the value,
`none` raises a `KeyError` whose text is the quoted key. -/
def pyGet (key : String) : Option α → Except String α
  | some v => Except.ok v
  | none => Except.error key

/-- What a handler did with one request: `result` is `Except.error e`
exactly when a Python exception `e` escapes the handler uncaught, and
`fetched` records whether the upstream HTTP call was performed. -/
structure Outcome where
  result : Except String Response
  fetched : Bool

/-- The body of the `try` block of `predict` (src/app.py:29-32). -/
def predict_try : Fetch PredictPayload → Except String Response
  | Fetch.raise msg => Except.error msg
  | Fetch.ok p => do
      let label ← pyGet "'label'" p.first_label
      return Response.predictOk label

/-- The `predict` handler (src/app.py:22-34): a missing image file is
rejected before any upstream call; the whole upstream interaction sits in
a `try/except` that converts any exception into a structured error. -/
def predict (image : Option ImageFile) (fetch : Fetch PredictPayload) : Outcome :=
  match image with
  | none => ⟨Except.ok (Response.err "No image file provided"), false⟩
  | some _ =>
      ⟨Except.ok (match predict_try fetch with
        | Except.ok r => r
        | Except.error e => Response.errDetails "Prediction failed" e), true⟩

/-- The body of the `try` block of `watering_alert` (src/app.py:47-70):
the status code is never checked; the fields are unpacked (raising on a
missing key) and the first-match-wins rule chain picks the tip. -/
def watering_alert_try : Fetch WeatherPayload → Except String Response
  | Fetch.raise msg => Except.error msg
  | Fetch.ok d => do
      let m ← pyGet "'main'" d.main
      let temp ← pyGet "'temp'" m.temp
      let humidity ← pyGet "'humidity'" m.humidity
      let weather ← pyGet "'weather'" d.weather_description
      return Response.wateringOk temp humidity weather
        (watering_tip ⟨temp, humidity, weather⟩)

/-- The `watering_alert` handler (src/app.py:37-73): a missing API key is
rejected before any upstream call; the upstream interaction sits in a
`try/except` converting any exception into a structured error.  The
`city` query parameter only feeds the request URL, so it does not appear
in the embedding. -/
def watering_alert (api_key : Option String) (fetch : Fetch WeatherPayload) : Outcome :=
  if (api_key.getD "") = "" then
    ⟨Except.ok (Response.err "Missing OpenWeather API key."), false⟩
  else
    ⟨Except.ok (match watering_alert_try fetch with
      | Except.ok r => r
      | Except.error e => Response.errDetails "Failed to get weather data" e), true⟩

/-- The body of the `try` block of `get_weather` (src/app.py:130-163):
a non-200 status yields a structured error built from the payload's
`message` field; otherwise the fields are unpacked and the all-rules tip
list is attached. -/
def get_weather_try : Fetch WeatherPayload → Except String Response
  | Fetch.raise msg => Except.error msg
  | Fetch.ok d =>
      if d.status ≠ 200 then
        Except.ok (Response.err (d.message.getD "Unable to fetch weather"))
      else do
        let m ← pyGet "'main'" d.main
        let temperature ← pyGet "'temp'" m.temp
        let weather_desc ← pyGet "'weather'" d.weather_description
        let humidity ← pyGet "'humidity'" m.humidity
        return Response.weatherOk temperature weather_desc humidity
          (weather_tips ⟨temperature, humidity, weather_desc⟩)

/-- The `get_weather` handler of the `/weather` route (src/app.py:124-166):
a missing API key is rejected before any upstream call; the upstream
interaction sits in a `try/except` converting any exception into a
structured error. -/
def get_weather (api_key : Option String) (fetch : Fetch WeatherPayload) : Outcome :=
  if (api_key.getD "") = "" then
    ⟨Except.ok (Response.err "OpenWeather API key is missing in .env"), false⟩
  else
    ⟨Except.ok (match get_weather_try fetch with
      | Except.ok r => r
      | Except.error e => Response.errDetails "Weather fetch failed" e), true⟩

/-- The upstream part of `daily_care` (src/app.py:88-121).  There is no
`try/except` here: an exception from the network call or the `.json()`
decoding (the `Fetch.raise` case) or from a missing key propagates as
`Except.error`.  The status check happens only after the JSON decoding,
and its error carries no details. -/
def daily_care_try (plant_type city : String) :
    Fetch WeatherPayload → Except String Response
  | Fetch.raise msg => Except.error msg
  | Fetch.ok d =>
      if d.status ≠ 200 then
        Except.ok (Response.err "Failed to fetch weather data.")
      else do
        let m ← pyGet "'main'" d.main
        let temperature ← pyGet "'temp'" m.temp
        let humidity ← pyGet "'humidity'" m.humidity
        let description ← pyGet "'weather'" d.weather_description
        return Response.dailyOk plant_type city temperature humidity description
          (care_suggestions plant_type temperature humidity)

/-- The `daily_care` handler (src/app.py:76-121): a missing or empty
`city` or `plant_type` is rejected before any upstream call; afterwards
the unguarded upstream interaction of `daily_care_try` runs. -/
def daily_care (city plant_type : Option String) (fetch : Fetch WeatherPayload) :
    Outcome :=
  if (city.getD "") = "" ∨ (plant_type.getD "") = "" then
    ⟨Except.ok (Response.err "City and plant type are required."), false⟩
  else
    ⟨daily_care_try (plant_type.getD "") (city.getD "") fetch, true⟩

/-- What `plant_journal` did with one request: its HTTP response and
status code, and each filesystem effect it performed. -/
structure JournalOutcome where
  response : Response
  status : Nat
  dir_created : Bool
  note_written : Bool
  image_saved : Bool
deriving DecidableEq

/-- The `plant_journal` handler (src/app.py:170-195): a missing or empty
note is rejected with status 400 before any filesystem effect; otherwise
the entry directory is created, the note written, and the image saved
when one was uploaded.  The timestamp only names the directory and the
response field, so it is an opaque string argument here. -/
def plant_journal (note : Option String) (image : Option ImageFile)
    (timestamp : String) : JournalOutcome :=
  if (note.getD "") = "" then
    ⟨Response.err "Note text is required", 400, false, false, false⟩
  else
    ⟨Response.journalOk timestamp image.isSome, 200, true, true, image.isSome⟩

/-! Helper definitions and lemmas for the theorems below. -/

/-- Whether a tip string is one of the three temperature-band tips of the
`/weather` route. -/
def isTempTip (s : String) : Bool :=
  s == heat_tip || s == frost_tip || s == normal_tip

/-- The part of the `/weather` tips list that the rain and humidity rules
contribute (src/app.py:153-156). -/
def weather_tail (w : WeatherReading) : List String :=
  (if hasRain w.description then [rain_tip] else []) ++
  (if w.humidity > 80 then [humidity_tip] else [])

lemma weather_tips_eq (w : WeatherReading) :
    weather_tips w =
      (if w.temperature > 30 then [heat_tip]
       else if w.temperature < 10 then [frost_tip]
       else [normal_tip]) ++ weather_tail w := by
  unfold weather_tips weather_tail
  exact List.append_assoc _ _ _

lemma weather_tail_facts (w : WeatherReading) :
    (weather_tail w).countP isTempTip = 0 ∧
    heat_tip ∉ weather_tail w ∧ frost_tip ∉ weather_tail w ∧
    normal_tip ∉ weather_tail w := by
  unfold weather_tail
  split <;> split <;> exact ⟨by decide, by decide, by decide, by decide⟩

lemma not_mem_append_of {a : String} {l₁ l₂ : List String}
    (h₁ : a ∉ l₁) (h₂ : a ∉ l₂) : a ∉ l₁ ++ l₂ := by
  intro hmem
  rcases List.mem_append.1 hmem with h | h
  · exact h₁ h
  · exact h₂ h

/-- C1: the all-rules advisory of the `/weather` route produces exactly
one of the three temperature tips for every input — `temperature > 30`
yields the heat-watering tip, `temperature < 10` the frost-protection
tip, and otherwise the water-as-usual tip; in particular any input with
`temperature > 30` includes the heat tip and never the frost tip. -/
theorem weather_temp_band_exclusive (w : WeatherReading) :
    (weather_tips w).countP isTempTip = 1
    ∧ (w.temperature > 30 →
        heat_tip ∈ weather_tips w ∧ frost_tip ∉ weather_tips w)
    ∧ (w.temperature < 10 →
        frost_tip ∈ weather_tips w ∧ heat_tip ∉ weather_tips w)
    ∧ (¬ w.temperature > 30 → ¬ w.temperature < 10 →
        normal_tip ∈ weather_tips w ∧ heat_tip ∉ weather_tips w ∧
          frost_tip ∉ weather_tips w) := by
  obtain ⟨hc, hh, hf, hn⟩ := weather_tail_facts w
  rw [weather_tips_eq]
  by_cases h1 : w.temperature > 30
  · rw [if_pos h1]
    refine ⟨?_, fun _ => ⟨?_, ?_⟩,
      fun h2 => absurd (h1.trans h2) (by norm_num),
      fun hna _ => absurd h1 hna⟩
    · rw [List.countP_append, hc]; decide
    · exact List.mem_append_left _ (by decide)
    · exact not_mem_append_of (by decide) hf
  · rw [if_neg h1]
    by_cases h2 : w.temperature < 10
    · rw [if_pos h2]
      refine ⟨?_, fun hx => absurd hx h1, fun _ => ⟨?_, ?_⟩,
        fun _ hnb => absurd h2 hnb⟩
      · rw [List.countP_append, hc]; decide
      · exact List.mem_append_left _ (by decide)
      · exact not_mem_append_of (by decide) hh
    · rw [if_neg h2]
      refine ⟨?_, fun hx => absurd hx h1, fun hx => absurd hx h2,
        fun _ _ => ⟨?_, ?_, ?_⟩⟩
      · rw [List.countP_append, hc]; decide
      · exact List.mem_append_left _ (by decide)
      · exact not_mem_append_of (by decide) hh
      · exact not_mem_append_of (by decide) hf

/-- Witness for C1: a reading at 35 °C gets the heat tip and not the
frost tip, and exactly one temperature tip overall. -/
theorem weather_temp_band_exclusive_witness :
    (weather_tips ⟨35, 50, "clear sky"⟩).countP isTempTip = 1 ∧
    heat_tip ∈ weather_tips ⟨35, 50, "clear sky"⟩ ∧
    frost_tip ∉ weather_tips ⟨35, 50, "clear sky"⟩ :=
  ⟨(weather_temp_band_exclusive ⟨35, 50, "clear sky"⟩).1,
   (weather_temp_band_exclusive ⟨35, 50, "clear sky"⟩).2.1 (by norm_num)⟩

/-- C2: the watering-alert rule set returns exactly one tip, chosen
first-match-wins: dry-and-warm (humidity < 50 and temperature > 20)
yields the water-today tip; otherwise humidity > 80 yields the hold-off
tip; otherwise a description containing "rain" (lowercased check) yields
the no-need-to-water tip; otherwise the check-soil-moisture tip. -/
theorem watering_alert_first_match (w : WeatherReading) :
    (w.humidity < 50 ∧ w.temperature > 20 → watering_tip w = water_today_tip)
    ∧ (¬ (w.humidity < 50 ∧ w.temperature > 20) → w.humidity > 80 →
        watering_tip w = hold_off_tip)
    ∧ (¬ (w.humidity < 50 ∧ w.temperature > 20) → ¬ w.humidity > 80 →
        hasRain w.description = true → watering_tip w = rainy_no_water_tip)
    ∧ (¬ (w.humidity < 50 ∧ w.temperature > 20) → ¬ w.humidity > 80 →
        hasRain w.description = false → watering_tip w = check_soil_tip)
    ∧ (watering_tip w = water_today_tip ∨ watering_tip w = hold_off_tip ∨
        watering_tip w = rainy_no_water_tip ∨ watering_tip w = check_soil_tip) := by
  unfold watering_tip
  by_cases h1 : w.humidity < 50 ∧ w.temperature > 20
  · simp [h1]
  · rw [if_neg h1]
    by_cases h2 : w.humidity > 80
    · simp [h1, h2]
    · rw [if_neg h2]
      by_cases h3 : hasRain w.description
      · simp [h1, h2, h3]
      · simp [h1, h2, h3]

/-- Witness for C2: humidity 40 and temperature 25 with a clear sky get
the water-today tip. -/
theorem watering_alert_first_match_witness :
    watering_tip ⟨25, 40, "clear sky"⟩ = water_today_tip :=
  (watering_alert_first_match ⟨25, 40, "clear sky"⟩).1 ⟨by norm_num, by norm_num⟩

/-- C3: any description containing the substring "rain" in any letter
case makes the all-rules advisory include the reduce-watering tip,
whatever the temperature and humidity. -/
theorem rain_includes_reduce_tip (w : WeatherReading)
    (h : ∃ u, u <:+: w.description.data ∧ u.map Char.toLower = "rain".data) :
    rain_tip ∈ weather_tips w := by
  obtain ⟨u, hu, hlow⟩ := h
  have h2 : "rain".data <:+: (lowerStr w.description).data := by
    rw [← hlow]
    exact hu.map Char.toLower
  have h3 : hasRain w.description = true := by
    unfold hasRain
    exact decide_eq_true h2
  rw [weather_tips_eq]
  refine List.mem_append_right _ ?_
  unfold weather_tail
  simp [h3]

/-- Witness for C3: an upper-case RAIN in the description triggers the
reduce-watering tip at mild temperature and humidity. -/
theorem rain_includes_reduce_tip_witness :
    rain_tip ∈ weather_tips ⟨20, 50, "Heavy RAIN showers"⟩ :=
  rain_includes_reduce_tip ⟨20, 50, "Heavy RAIN showers"⟩
    ⟨"RAIN".data, by decide, by decide⟩

/-- C4: the daily-care suggestions are one base tip chosen on the
lowercased plant type followed by at most one conditional tip — cactus
with humidity > 70 adds the reduce-watering warning, fern with
humidity < 50 adds the misting reminder, any other plant with
temperature < 10 adds the cold-draft warning; in particular plant type
"cactus" with humidity 75 yields exactly the base cactus tip then the
reduce-watering warning. -/
theorem daily_care_suggestion_rules (pt : String) (t h : Rat) :
    (lowerStr pt = "cactus" → care_suggestions pt t h =
      cactus_base_tip :: (if h > 70 then [cactus_humid_warn] else []))
    ∧ (lowerStr pt = "fern" → care_suggestions pt t h =
      fern_base_tip :: (if h < 50 then [fern_mist_tip] else []))
    ∧ (lowerStr pt ≠ "cactus" → lowerStr pt ≠ "fern" →
      care_suggestions pt t h =
        other_base_tip :: (if t < 10 then [other_cold_tip] else []))
    ∧ (lowerStr pt = "cactus" →
      care_suggestions pt t 75 = [cactus_base_tip, cactus_humid_warn]) := by
  unfold care_suggestions
  by_cases h1 : lowerStr pt = "cactus"
  · refine ⟨fun _ => by rw [if_pos h1], fun hx => absurd (h1.symm.trans hx) (by decide),
      fun hx => absurd h1 hx, fun _ => ?_⟩
    rw [if_pos h1, if_pos (by norm_num : (75 : Rat) > 70)]
  · rw [if_neg h1]
    by_cases h2 : lowerStr pt = "fern"
    · exact ⟨fun hx => absurd hx h1, fun _ => by rw [if_pos h2],
        fun _ hx => absurd h2 hx, fun hx => absurd hx h1⟩
    · rw [if_neg h2]
      exact ⟨fun hx => absurd hx h1, fun hx => absurd hx h2,
        fun _ _ => rfl, fun hx => absurd hx h1⟩

/-- Witness for C4: plant type "Cactus" (mixed case) at humidity 75 gets
the base cactus tip and then the reduce-watering warning. -/
theorem daily_care_suggestion_rules_witness :
    care_suggestions "Cactus" 20 75 = [cactus_base_tip, cactus_humid_warn] :=
  (daily_care_suggestion_rules "Cactus" 20 75).2.2.2 (by decide)

/-- Counterexample to C5: the `/daily-care` route calls the weather API
with no `try/except`, so a raising upstream call escapes the handler as
an uncaught exception instead of a structured error payload. -/
theorem daily_care_uncaught_exception :
    (daily_care (some "London") (some "cactus")
      (Fetch.raise "ConnectionError")).result = Except.error "ConnectionError" := rfl

/-- C5 (amended): for `/predict`, `/watering-alert` and `/weather` an
upstream call that throws or returns malformed data is caught and
reported as a structured payload with a generic failure message and the
exception text as details, and no exception escapes those handlers; but
`/daily-care` does not catch — an upstream throw propagates out of the
handler uncaught. -/
theorem upstream_failure_handling :
    (∀ image fetch, ∃ r, (predict image fetch).result = Except.ok r)
    ∧ (∀ key fetch, ∃ r, (watering_alert key fetch).result = Except.ok r)
    ∧ (∀ key fetch, ∃ r, (get_weather key fetch).result = Except.ok r)
    ∧ (∀ image msg, (predict (some image) (Fetch.raise msg)).result =
        Except.ok (Response.errDetails "Prediction failed" msg))
    ∧ (∀ key msg, key.getD "" ≠ "" →
        (watering_alert key (Fetch.raise msg)).result =
          Except.ok (Response.errDetails "Failed to get weather data" msg))
    ∧ (∀ key msg, key.getD "" ≠ "" →
        (get_weather key (Fetch.raise msg)).result =
          Except.ok (Response.errDetails "Weather fetch failed" msg))
    ∧ (∀ city plant_type msg, city.getD "" ≠ "" → plant_type.getD "" ≠ "" →
        (daily_care city plant_type (Fetch.raise msg)).result =
          Except.error msg) := by
  refine ⟨?_, ?_, ?_, ?_, ?_, ?_, ?_⟩
  · intro image fetch
    cases image with
    | none => exact ⟨_, rfl⟩
    | some _ => exact ⟨_, rfl⟩
  · intro key fetch
    unfold watering_alert
    by_cases hk : key.getD "" = ""
    · rw [if_pos hk]; exact ⟨_, rfl⟩
    · rw [if_neg hk]; exact ⟨_, rfl⟩
  · intro key fetch
    unfold get_weather
    by_cases hk : key.getD "" = ""
    · rw [if_pos hk]; exact ⟨_, rfl⟩
    · rw [if_neg hk]; exact ⟨_, rfl⟩
  · intro image msg
    rfl
  · intro key msg hk
    unfold watering_alert
    rw [if_neg hk]
    rfl
  · intro key msg hk
    unfold get_weather
    rw [if_neg hk]
    rfl
  · intro city plant_type msg hc hp
    unfold daily_care
    rw [if_neg (by push_neg; exact ⟨hc, hp⟩)]
    rfl

/-- Witness for C5 (amended): with an API key configured, a raising
upstream call leaves `/watering-alert` with a caught, structured error. -/
theorem upstream_failure_handling_witness :
    (watering_alert (some "key123") (Fetch.raise "timeout")).result =
      Except.ok (Response.errDetails "Failed to get weather data" "timeout") :=
  upstream_failure_handling.2.2.2.2.1 (some "key123") "timeout" (by decide)

/-- C6: each handler with required inputs rejects a request missing one
with a structured error payload, without raising and without performing
its upstream call or filesystem work: `/predict` with no image,
`/daily-care` with a missing or empty city or plant type, and
`/plant-journal` with a missing or empty note. -/
theorem missing_input_no_work :
    (∀ fetch, predict none fetch =
        ⟨Except.ok (Response.err "No image file provided"), false⟩)
    ∧ (∀ city plant_type fetch, city.getD "" = "" ∨ plant_type.getD "" = "" →
        daily_care city plant_type fetch =
          ⟨Except.ok (Response.err "City and plant type are required."), false⟩)
    ∧ (∀ note image ts, note.getD "" = "" →
        (plant_journal note image ts).dir_created = false ∧
        (plant_journal note image ts).note_written = false ∧
        (plant_journal note image ts).image_saved = false ∧
        (plant_journal note image ts).response =
          Response.err "Note text is required") := by
  refine ⟨fun fetch => rfl, ?_, ?_⟩
  · intro city plant_type fetch h
    unfold daily_care
    rw [if_pos h]
  · intro note image ts h
    unfold plant_journal
    rw [if_pos h]
    exact ⟨rfl, rfl, rfl, rfl⟩

/-- Witness for C6: a `/daily-care` request with no city and no plant
type is rejected without any fetch. -/
theorem missing_input_no_work_witness :
    daily_care none none (Fetch.raise "unreachable") =
      ⟨Except.ok (Response.err "City and plant type are required."), false⟩ :=
  missing_input_no_work.2.1 none none (Fetch.raise "unreachable") (Or.inl rfl)

/-- C7: the plant-catalog lookup is case-insensitive on the supplied
strings — environment "LOW LIGHT" with preference "low maintenance"
returns exactly Snake Plant, ZZ Plant, Pothos, and environment "humid"
with preference "tropical" returns exactly Fern, Calathea. -/
theorem plant_selector_lookup_examples :
    plant_selector (some "LOW LIGHT") (some "low maintenance") =
      ⟨"low light", "low maintenance", ["Snake Plant", "ZZ Plant", "Pothos"]⟩ ∧
    plant_selector (some "humid") (some "tropical") =
      ⟨"humid", "tropical", ["Fern", "Calathea"]⟩ := by
  exact ⟨rfl, rfl⟩

/-- C8: when either the environment key or, under it, the preference key
is absent from the static plant catalog, the lookup returns the empty
list; it is a total function, so it can neither raise nor produce an
error value. -/
theorem catalog_unknown_keys_empty (env pref : String)
    (h : plant_database.lookup env = none ∨
      ((plant_database.lookup env).getD []).lookup pref = none) :
    catalog_lookup env pref = [] := by
  unfold catalog_lookup
  rcases h with h | h <;> simp [h]

/-- Witness for C8: the environment "desert" is not in the catalog, so
any preference under it yields the empty list. -/
theorem catalog_unknown_keys_empty_witness :
    catalog_lookup "desert" "tropical" = [] :=
  catalog_unknown_keys_empty "desert" "tropical" (Or.inl rfl)

/-- C9: a `/plant-journal` request with a missing or empty note gets an
error response with status 400 and causes no filesystem effect — no
directory created, no note written, no image saved. -/
theorem journal_missing_note_no_effect (note : Option String)
    (image : Option ImageFile) (ts : String) (h : note.getD "" = "") :
    plant_journal note image ts =
      ⟨Response.err "Note text is required", 400, false, false, false⟩ := by
  unfold plant_journal
  rw [if_pos h]

/-- Witness for C9: a request with no note but with an image still
produces the error and no filesystem effect. -/
theorem journal_missing_note_no_effect_witness :
    plant_journal none (some ⟨"leaf.jpg"⟩) "20251012-101500" =
      ⟨Response.err "Note text is required", 400, false, false, false⟩ :=
  journal_missing_note_no_effect none (some ⟨"leaf.jpg"⟩) "20251012-101500" rfl

/-- C10: the `/plant-selector` response echoes the lowercased forms of
the supplied environment and preference (the empty string when absent),
not the original-cased inputs — e.g. input "HUMID" is echoed as "humid". -/
theorem selector_echo_lowercased (environment preference : Option String) :
    (plant_selector environment preference).environment =
      lowerStr (environment.getD "")
    ∧ (plant_selector environment preference).preference =
      lowerStr (preference.getD "")
    ∧ (plant_selector (some "HUMID") (some "Tropical")).environment = "humid"
    ∧ (plant_selector (some "HUMID") (some "Tropical")).preference = "tropical"
    ∧ (plant_selector (some "HUMID") (some "Tropical")).environment ≠ "HUMID" :=
  ⟨rfl, rfl, by decide, by decide, by decide⟩

end GardienAI
